import Mathlib

/-!
A shallow embedding of the two-pass assembler in `main.py` of the
ProgramAssembler repository, together with theorems checking the
specification's claims about it.

Conventions of the embedding:
* Python strings are Lean `String`s; character-level operations are
  performed on `String.toList` / `String.mk`, which agrees with Python's
  per-character semantics for the ASCII data this assembler handles.
* Python exceptions (`KeyError`, `IndexError`, `ValueError`) and the
  `exit()` calls are modelled with `Except String`: an uncaught exception
  is an `Except.error`.
* Python integers are `Int` (or `Nat` where the source value is a count).
-/

deriving instance DecidableEq for Except

namespace Asm

/-- Python `s.lower()` (ASCII). -/
def pyLower (s : String) : String := String.mk (s.toList.map Char.toLower)

/-- Python `s.upper()` (ASCII). -/
def pyUpper (s : String) : String := String.mk (s.toList.map Char.toUpper)

/-- Python `s.endswith(":")`: the last character is a colon. -/
def endsColon (s : String) : Bool :=
  match s.toList.getLast? with
  | some c => c == ':'
  | none => false

/-- Python `s.replace(":", "")`: remove every colon. -/
def stripColons (s : String) : String :=
  String.mk (s.toList.filter (fun c => !(c == ':')))

/-- Python `s.strip()`: drop whitespace from both ends. -/
def pyStrip (s : String) : String :=
  String.mk (((s.toList.dropWhile Char.isWhitespace).reverse.dropWhile Char.isWhitespace).reverse)

/-- Python slicing `s[0:j]` for an arbitrary (possibly negative) `j`. -/
def pyTake0 (s : String) (j : Int) : String :=
  String.mk (s.toList.take (if 0 ≤ j then j else (s.toList.length : Int) + j).toNat)

/-- Python `s.ljust(n, c)`. -/
def ljust (s : String) (n : Nat) (c : Char) : String :=
  s ++ String.mk (List.replicate (n - s.toList.length) c)

/-- Python `int.bit_length()` (on the absolute value, as Python does). -/
def bitLength (d : Int) : Nat :=
  if d.natAbs = 0 then 0 else (Nat.toDigits 2 d.natAbs).length

/-- Python `format(d, 'b')`: binary digits, `"0"` for zero, `-` sign for
negative values. -/
def pyFormatB (d : Int) : String :=
  if d < 0 then "-" ++ String.mk (Nat.toDigits 2 d.natAbs)
  else String.mk (Nat.toDigits 2 d.toNat)

/-- Python `'{:02x}'.format(n)`: lowercase hex, zero-padded to width 2. -/
def format02x (n : Nat) : String :=
  String.mk (List.replicate (2 - (Nat.toDigits 16 n).length) '0' ++ Nat.toDigits 16 n)

/-- Python `('{0:0' + str(w) + 'b}').format(v)`: binary, zero-padded to
width `w`. -/
def padBin (w : Nat) (v : Nat) : String :=
  String.mk (List.replicate (w - (Nat.toDigits 2 v).length) '0' ++ Nat.toDigits 2 v)

/-- Value of a nonempty all-digit character list, base 10. -/
def digitsVal (cs : List Char) : Option Nat :=
  if cs ≠ [] ∧ cs.all Char.isDigit then
    some (cs.foldl (fun a c => a * 10 + (c.toNat - 48)) 0)
  else none

/-- Python `int(s)` on a decimal-literal token: optional sign followed by
digits; `none` models the `ValueError` raised otherwise. -/
def pyInt (s : String) : Option Int :=
  match s.toList with
  | '-' :: cs => (digitsVal cs).map (fun n => -(n : Int))
  | '+' :: cs => (digitsVal cs).map (fun n => (n : Int))
  | cs => (digitsVal cs).map (fun n => (n : Int))

/-- `dec2comp8` from `main.py`.  For `Int` inputs the body never raises, so
the `try/except` wrapper is dead and the function totally returns a string:

    if d > 0:
        l = d.bit_length(); v = "00000000"; v = v[0:8-l] + format(d, 'b')
    elif d < 0:
        dt = 128 + d; l = dt.bit_length(); v = "10000000"
        v = v[0:8-l] + format(dt, 'b')[:]
    else:
        v = "00000000"
    return v
-/
def dec2comp8 (d : Int) : String :=
  if 0 < d then
    pyTake0 "00000000" (8 - (bitLength d : Int)) ++ pyFormatB d
  else if d < 0 then
    let dt : Int := 128 + d
    pyTake0 "10000000" (8 - (bitLength dt : Int)) ++ pyFormatB dt
  else "00000000"

/-- `dec2bin8` from `main.py`; the negative branch prints and calls
`exit()`, modelled as an error. -/
def dec2bin8 (d : Int) : Except String String :=
  if 0 < d then
    Except.ok (pyTake0 "00000000" (8 - (bitLength d : Int)) ++ pyFormatB d)
  else if d = 0 then Except.ok "00000000"
  else Except.error "Invalid address: value is negative"

/-- The `SubCommandType` enum of `main.py`. -/
inductive SubCommandType where
  | SUB_COMMAND_TYPE
  | ARGUMENT
  | LABEL
  | APPEND
deriving DecidableEq, BEq, Repr

/-- A register-name → bit-pattern table (a Python `dict` of strings,
looked up by key). -/
abbrev RegTable := List (String × String)

/-- The `Command` class of `main.py`: an opcode literal plus an ordered
list of field-encoding steps. -/
structure Command where
  subcommands : List RegTable
  argument : Nat
  opcode : String
  label : Nat
  order : List SubCommandType
  appended_bits : List Nat
deriving DecidableEq

/-- `Command.__init__(opcode)`. -/
def Command.init (opcode : String) : Command :=
  { subcommands := [], argument := 0, opcode := opcode, label := 0,
    order := [], appended_bits := [] }

/-- `Command.add_sub_command`. -/
def Command.add_sub_command (c : Command) (op_dict : RegTable) : Command :=
  { c with subcommands := c.subcommands ++ [op_dict],
           order := c.order ++ [SubCommandType.SUB_COMMAND_TYPE] }

/-- `Command.add_argument`. -/
def Command.add_argument (c : Command) (length : Nat) : Command :=
  { c with argument := length, order := c.order ++ [SubCommandType.ARGUMENT] }

/-- `Command.add_label`. -/
def Command.add_label (c : Command) (length : Nat) : Command :=
  { c with label := length, order := c.order ++ [SubCommandType.LABEL] }

/-- `Command.append_bits`. -/
def Command.append_bits (c : Command) (length : Nat) : Command :=
  { c with appended_bits := c.appended_bits ++ [length],
           order := c.order ++ [SubCommandType.APPEND] }

/-- Label Table: Python `dict` from label name to address, insertion
order preserved, later insertion of an existing key overwrites. -/
abbrev LabelTable := List (String × Nat)

/-- Python `dict` assignment `d[k] = v`. -/
def dictInsert (d : LabelTable) (k : String) (v : Nat) : LabelTable :=
  if (List.lookup k d).isSome then
    d.map (fun p => if p.1 == k then (k, v) else p)
  else d ++ [(k, v)]

/-- `format_sub_command(command, argument, current_argument)`:
`command.subcommands[current_argument][argument.upper()]`; an absent
index or key raises. -/
def format_sub_command (command : Command) (argument : String)
    (current_argument : Nat) : Except String String :=
  match command.subcommands.get? current_argument with
  | none => Except.error "IndexError: subcommands"
  | some tbl =>
    match List.lookup (pyUpper argument) tbl with
    | none => Except.error "KeyError: unknown register"
    | some v => Except.ok v

/-- `format_argument(command, argument, line_num)`:
`dec2comp8(int(argument), line_num)`; `int()` raises `ValueError` on a
non-numeric token. -/
def format_argument (_command : Command) (argument : String)
    (_line_num : Nat) : Except String String :=
  match pyInt argument with
  | none => Except.error "ValueError: invalid literal for int"
  | some d => Except.ok (dec2comp8 d)

/-- `format_label(command, argument, label)`: zero-padded binary of
`label[argument]`; an absent key raises `KeyError`. -/
def format_label (command : Command) (argument : String)
    (labels : LabelTable) : Except String String :=
  match List.lookup argument labels with
  | none => Except.error "KeyError: undefined label"
  | some v => Except.ok (padBin command.label v)

/-- The loop body of `Command.format`: walk `order`, keeping the running
indices `current_indices`, `current_sub_command` (never incremented in the
source) and `current_append`; `args[current_indices]` raises on a missing
operand.  The `APPEND` arm executes `continue`, skipping the
`current_indices += 1` at the bottom of the loop. -/
def formatGo (c : Command) (labels : LabelTable) (args : List String) :
    List SubCommandType → Nat → Nat → Nat → String → Except String String
  | [], _, _, _, acc => Except.ok acc
  | SubCommandType.APPEND :: rest, ci, cs, ca, acc =>
    match c.appended_bits.get? ca with
    | none => Except.error "IndexError: appended_bits"
    | some n =>
      formatGo c labels args rest ci cs (ca + 1)
        (acc ++ String.mk (List.replicate n '0'))
  | SubCommandType.SUB_COMMAND_TYPE :: rest, ci, cs, ca, acc =>
    match args.get? ci with
    | none => Except.error "IndexError: args"
    | some a =>
      match format_sub_command c a cs with
      | Except.error e => Except.error e
      | Except.ok v => formatGo c labels args rest (ci + 1) cs ca (acc ++ v)
  | SubCommandType.ARGUMENT :: rest, ci, cs, ca, acc =>
    match args.get? ci with
    | none => Except.error "IndexError: args"
    | some a =>
      match format_argument c a ci with
      | Except.error e => Except.error e
      | Except.ok v => formatGo c labels args rest (ci + 1) cs ca (acc ++ v)
  | SubCommandType.LABEL :: rest, ci, cs, ca, acc =>
    match args.get? ci with
    | none => Except.error "IndexError: args"
    | some a =>
      match format_label c a labels with
      | Except.error e => Except.error e
      | Except.ok v => formatGo c labels args rest (ci + 1) cs ca (acc ++ v)

/-- `Command.format(args, labels)`. -/
def Command.format (c : Command) (args : List String)
    (labels : LabelTable) : Except String String :=
  formatGo c labels args c.order 0 0 0 c.opcode

def __TABLE_B__ : RegTable :=
  [("RA", "000"), ("RB", "001"), ("RC", "010"), ("RD", "011"),
   ("RE", "100"), ("SP", "101")]

def __TABLE_C__ : RegTable :=
  [("RA", "000"), ("RB", "001"), ("RC", "010"), ("RD", "011"),
   ("RE", "100"), ("SP", "101"), ("PC", "110"), ("CR", "111")]

def __TABLE_D__ : RegTable :=
  [("RA", "000"), ("RB", "001"), ("RC", "010"), ("RD", "011"),
   ("RE", "100"), ("SP", "101"), ("PC", "110"), ("IR", "111")]

def __TABLE_E__ : RegTable :=
  [("RA", "000"), ("RB", "001"), ("RC", "010"), ("RD", "011"),
   ("RE", "100"), ("SP", "101"), ("ZEROS", "110"), ("ONES", "111")]

def __LOAD__ : Command :=
  ((Command.init "00000").add_sub_command __TABLE_B__).add_argument 8
def __LOAD_A__ : Command :=
  ((Command.init "00001").add_sub_command __TABLE_B__).add_argument 8
def __STORE__ : Command :=
  ((Command.init "00010").add_sub_command __TABLE_B__).add_argument 8
def __STORE_A__ : Command :=
  ((Command.init "00011").add_sub_command __TABLE_B__).add_argument 8
def __BRA__ : Command := (Command.init "00100000").add_label 8
def __BRA_Z__ : Command := (Command.init "00110000").add_label 8
def __BRA_N__ : Command := (Command.init "00110010").add_label 8
def __BRA_O__ : Command := (Command.init "00110001").add_label 8
def __BRA_C__ : Command := (Command.init "00110011").add_label 8
def __CALL__ : Command := (Command.init "00110100").add_label 8
def __RETURN__ : Command := Command.init "001110000000000"
def __HALT__ : Command := Command.init "0011110000000000"
def __PUSH__ : Command := (Command.init "0100").add_sub_command __TABLE_C__
def __POP__ : Command := (Command.init "0101").add_sub_command __TABLE_C__
def __O_PORT__ : Command := (Command.init "0110").add_sub_command __TABLE_D__
def __I_PORT__ : Command := (Command.init "0111").add_sub_command __TABLE_B__
def __ADD__ : Command :=
  ((((Command.init "1000").add_sub_command __TABLE_E__).add_sub_command
    __TABLE_B__).append_bits 3).add_sub_command __TABLE_E__
def __SUB__ : Command :=
  ((((Command.init "1001").add_sub_command __TABLE_E__).add_sub_command
    __TABLE_B__).append_bits 3).add_sub_command __TABLE_E__
def __AND__ : Command :=
  ((((Command.init "1010").add_sub_command __TABLE_E__).add_sub_command
    __TABLE_B__).append_bits 3).add_sub_command __TABLE_E__
def __OR__ : Command :=
  ((((Command.init "1011").add_sub_command __TABLE_E__).add_sub_command
    __TABLE_B__).append_bits 3).add_sub_command __TABLE_E__
def __XOR__ : Command :=
  ((((Command.init "1100").add_sub_command __TABLE_E__).add_sub_command
    __TABLE_B__).append_bits 3).add_sub_command __TABLE_E__
def __SHIFT_L__ : Command :=
  (((Command.init "11010").add_sub_command __TABLE_E__).append_bits
    5).add_sub_command __TABLE_B__
def __SHIFT_R__ : Command :=
  (((Command.init "11011").add_sub_command __TABLE_E__).append_bits
    5).add_sub_command __TABLE_B__
def __ROT_L__ : Command :=
  (((Command.init "11100").add_sub_command __TABLE_E__).append_bits
    5).add_sub_command __TABLE_B__
def __ROT_R__ : Command :=
  (((Command.init "11101").add_sub_command __TABLE_E__).append_bits
    5).add_sub_command __TABLE_B__
def __MOVE__ : Command :=
  (((Command.init "11110").add_sub_command __TABLE_D__).append_bits
    5).add_sub_command __TABLE_B__
def __MOVE_I__ : Command :=
  (((Command.init "11111").add_argument 8).add_sub_command __TABLE_B__)

def __COMMAND_DICTIONARY__ : List (String × Command) :=
  [("LOAD", __LOAD__), ("LOADA", __LOAD_A__), ("STORE", __STORE__),
   ("STOREA", __STORE_A__), ("BRA", __BRA__), ("BRAZ", __BRA_Z__),
   ("BRAN", __BRA_N__), ("BRAO", __BRA_O__), ("BRAC", __BRA_C__),
   ("CALL", __CALL__), ("RETURN", __RETURN__), ("HALT", __HALT__),
   ("PUSH", __PUSH__), ("POP", __POP__), ("OPORT", __O_PORT__),
   ("IPORT", __I_PORT__), ("ADD", __ADD__), ("SUB", __SUB__),
   ("AND", __AND__), ("OR", __OR__), ("XOR", __XOR__),
   ("SHIFTL", __SHIFT_L__), ("SHIFTR", __SHIFT_R__), ("ROTL", __ROT_L__),
   ("ROTR", __ROT_R__), ("MOVE", __MOVE__), ("MOVEI", __MOVE_I__)]

/-- A Token Line: one tokenized source line. -/
abbrev Line := List String

/-- Python `s.split()`: split on runs of whitespace, no empty words. -/
def splitWsGo : List Char → List Char → List String
  | [], acc => if acc.isEmpty then [] else [String.mk acc.reverse]
  | c :: cs, acc =>
    if c.isWhitespace then
      if acc.isEmpty then splitWsGo cs []
      else String.mk acc.reverse :: splitWsGo cs []
    else splitWsGo cs (c :: acc)

def splitWs (s : String) : List String := splitWsGo s.toList []

/-- `tokenize` from `main.py`, acting on the already-read raw lines:
strip each line, truncate at the first `#`, drop the line if empty, split
on whitespace, lower-case every word. -/
def tokenize (lines : List String) : List Line :=
  lines.filterMap (fun line =>
    let ls := pyStrip line
    let uls := String.mk (ls.toList.takeWhile (fun c => !(c == '#')))
    if uls.toList.isEmpty then none
    else some ((splitWs uls).map pyLower))

/-- One state step of `pass1`'s `for label in tokens:` loop, with `fuel`
bounding the number of iterations.  Python's list iterator keeps a plain
index `i` that advances by one per iteration even when the loop body calls
`tokens.remove(label)` (which deletes the first occurrence equal to
`label` and shifts the remainder down); `line_number` is incremented on
every iteration.  `tokens[i]` on an empty line raises `IndexError`
(modelled as an error).  The initial call passes `fuel = tokens.length`,
which is enough because the loop runs at most once per element of the
original list. -/
def pass1Go : Nat → List Line → Nat → LabelTable → Nat →
    Except String (LabelTable × List Line)
  | 0, tokens, i, dict, _ =>
    if i < tokens.length then Except.error "fuel exhausted (unreachable)"
    else Except.ok (dict, tokens)
  | fuel + 1, tokens, i, dict, line_number =>
    if h : i < tokens.length then
      match tokens[i] with
      | [] => Except.error "IndexError: empty token line"
      | w :: rest =>
        if endsColon w then
          pass1Go fuel (tokens.erase (w :: rest)) (i + 1)
            (dictInsert dict (stripColons w) line_number) (line_number + 1)
        else pass1Go fuel tokens (i + 1) dict (line_number + 1)
    else Except.ok (dict, tokens)

/-- `pass1` from `main.py`; returns the label dictionary together with the
final (mutated) token list. -/
def pass1 (tokens : List Line) : Except String (LabelTable × List Line) :=
  pass1Go tokens.length tokens 0 [] 0

/-- The loop of `pass2`, threading the mutated token list (each recognized
line has its mnemonic popped in place) and the `current_argument` counter.
After the loop, if the counter is not exactly 256 the sentinel fill entry
is appended.  A raised exception aborts the loop (the collected
`argument_code` list is lost). -/
def pass2Aux (labels : LabelTable) (isz : Nat) :
    List Line → Nat → List Line × Except String (List String)
  | [], current_argument =>
    ([], Except.ok
      (if current_argument == 256 then []
       else ["[" ++ format02x current_argument ++ "..FF] : 11111111111111111"]))
  | line :: rest, current_argument =>
    match line with
    | [] => (line :: rest, Except.error "IndexError: empty token line")
    | w :: ops =>
      match List.lookup (pyUpper w) __COMMAND_DICTIONARY__ with
      | none =>
        let r := pass2Aux labels isz rest current_argument
        (line :: r.1, r.2)
      | some command =>
        match command.format ops labels with
        | Except.error e => (ops :: rest, Except.error e)
        | Except.ok s =>
          let entry := format02x current_argument ++ " : " ++ ljust s isz '0'
          let r := pass2Aux labels isz rest (current_argument + 1)
          (ops :: r.1, r.2.map (fun out => entry :: out))

/-- `pass2(tokens, labels)` with the default `__instruction_size__ = 16`;
returns the final (mutated) token list together with the produced entries
(or the propagated exception). -/
def pass2 (tokens : List Line) (labels : LabelTable) :
    List Line × Except String (List String) :=
  pass2Aux labels 16 tokens 0

/-- Total declared bit width of a schema: opcode literal, the width of
each register-class table's codes, immediate/label field widths (once per
occurrence in `order`), and padding bits. -/
def tableWidth (tbl : RegTable) : Nat :=
  match tbl with
  | [] => 0
  | (_, v) :: _ => v.toList.length

def schemaWidth (c : Command) : Nat :=
  c.opcode.toList.length + (c.subcommands.map tableWidth).sum +
    c.argument * c.order.count SubCommandType.ARGUMENT +
    c.label * c.order.count SubCommandType.LABEL +
    c.appended_bits.sum

/-- A token line that `pass2` recognizes: nonempty and its first word,
upper-cased, is a key of the command dictionary. -/
def recLine : Line → Bool
  | [] => false
  | w :: _ => (List.lookup (pyUpper w) __COMMAND_DICTIONARY__).isSome

/-- Number of recognized (hence emitted) instruction lines. -/
def recCount (tokens : List Line) : Nat := tokens.countP recLine

/-- The in-place effect of `pass2` on one token line: recognized lines
lose their leading mnemonic, other lines are untouched. -/
def popRec : Line → Line
  | [] => []
  | w :: ops =>
    if (List.lookup (pyUpper w) __COMMAND_DICTIONARY__).isSome then ops
    else w :: ops

/-- The spec's words for the unsigned encoding: the zero-padded unsigned
8-bit binary representation of `n`. -/
def specUnsigned8 (n : Nat) : String :=
  String.mk (List.replicate (8 - (Nat.toDigits 2 n).length) '0' ++ Nat.toDigits 2 n)

/-! Claims section: Claim C1: schema widths -/

/-- Counterexample for claim C1.  The claim says every schema's
concatenated field widths sum to exactly 16 bits, but the PUSH schema is
an opcode of 4 bits plus one 3-bit register-class field: 7 bits, not 16
(the emitted instruction only reaches 16 bits through `pass2`'s
`ljust(16, '0')`). -/
theorem C1_counterexample :
    List.lookup "PUSH" __COMMAND_DICTIONARY__ = some __PUSH__ ∧
    schemaWidth __PUSH__ = 7 ∧ ¬ schemaWidth __PUSH__ = 16 := by decide

/-- Claim C1, amended.  The command dictionary has 27 mnemonics (not 26);
every schema's total declared field width is at most 16, and it equals 16
for every mnemonic except RETURN (15 bits) and PUSH, POP, OPORT, IPORT
(7 bits each), whose encodings are padded on the right to 16 bits by
`pass2`. -/
theorem C1_amended_widths :
    __COMMAND_DICTIONARY__.length = 27 ∧
    (__COMMAND_DICTIONARY__.all fun p => schemaWidth p.2 ≤ 16) = true ∧
    (__COMMAND_DICTIONARY__.all fun p =>
      (schemaWidth p.2 == 16) ==
        !(["RETURN", "PUSH", "POP", "OPORT", "IPORT"].contains p.1)) = true := by
  decide

/-! Claims section: Claim C2: pass1 label resolution -/

/-- Claim C2 (code bug).  `pass1` removes elements of `tokens` while
iterating over it, so the line after an erased label line is skipped.  On
`[["a:"], ["b:"], ["halt"]]` the second label line is neither recorded in
the label table nor removed from the stream, contradicting `pass1`'s own
docstring ("returns a dictionary of all location labels"). -/
theorem C2_pass1_consecutive_labels_bug :
    pass1 [["a:"], ["b:"], ["halt"]] =
      Except.ok ([("a", 0)], [["b:"], ["halt"]]) ∧
    List.lookup "b" [("a", 0)] = none := by decide

/-! Claims section: Claim C3: signed encoder values -/

/-- Claim C3 (code bug).  `dec2comp8` returns the expected strings for
0, -1 and 127, but for -128 it returns the 9-character string
`"100000000"` (because `(0).bit_length() == 0`), not the 8-bit pattern
`"10000000"` required by two's complement and by the function's own
comment ("converts d to an 8-bit 2-s complement binary value"). -/
theorem C3_twos_complement_values :
    dec2comp8 0 = "00000000" ∧ dec2comp8 (-1) = "11111111" ∧
    dec2comp8 127 = "01111111" ∧ dec2comp8 (-128) = "100000000" ∧
    ¬ dec2comp8 (-128) = "10000000" := by decide

/-! Claims section: Claim C4: signed encoder range check -/

/-- Claim C4 (code bug).  `dec2comp8` performs no range check at all: for
128 it silently returns the pattern that encodes -128, for 300 it returns
a 16-character string, and for -129 it returns a string containing a
minus sign — it never fails with a range error. -/
theorem C4_no_range_check :
    dec2comp8 128 = "10000000" ∧
    dec2comp8 300 = "0000000100101100" ∧
    (dec2comp8 300).toList.length = 16 ∧
    dec2comp8 (-129) = "1000000-1" := by decide

/-! Claims section: Claim C5: unknown mnemonics -/

/-- Counterexample for claim C5.  A line whose first word is not a key of
the command dictionary does not make `pass2` fail: `["foo"]` is silently
skipped and the following `halt` line is still encoded. -/
theorem C5_counterexample :
    pass2 [["foo"], ["halt"]] [] =
      ([["foo"], []],
       Except.ok ["00 : 0011110000000000",
                  "[01..FF] : 11111111111111111"]) := by decide

/-- Claim C5, amended.  For every token line whose first word, upper-cased,
is not a key of the command dictionary, `pass2` silently skips the line —
it emits nothing for it, does not advance the address counter, leaves the
line unmutated, and continues with the remaining lines. -/
theorem C5_amended_skip (labels : LabelTable) (w : String)
    (ops : List String) (rest : List Line) (cur : Nat)
    (h : List.lookup (pyUpper w) __COMMAND_DICTIONARY__ = none) :
    pass2Aux labels 16 ((w :: ops) :: rest) cur =
      ((w :: ops) :: (pass2Aux labels 16 rest cur).1,
       (pass2Aux labels 16 rest cur).2) := by
  simp [pass2Aux, h]

/-- Witness for `C5_amended_skip` at a concrete skipped line. -/
theorem C5_witness :
    List.lookup (pyUpper "foo") __COMMAND_DICTIONARY__ = none ∧
    pass2Aux [] 16 [["foo"], ["halt"]] 0 =
      (["foo"] :: (pass2Aux [] 16 [["halt"]] 0).1,
       (pass2Aux [] 16 [["halt"]] 0).2) :=
  ⟨by decide, C5_amended_skip [] "foo" [] [["halt"]] 0 (by decide)⟩

/-! Claims section: Claim C8: the ["start:", "halt"] program -/

/-- Claim C8.  Tokenizing `["start:", "halt"]`, Pass 1 yields the label
table `{"start": 0}` with the label line removed, and Pass 2 emits exactly
one encoded instruction, at address 0, whose 16-bit string is the fixed
HALT pattern `"0011110000000000"` (followed only by the fill sentinel for
the unused addresses 01..FF). -/
theorem C8_start_halt :
    tokenize ["start:", "halt"] = [["start:"], ["halt"]] ∧
    pass1 [["start:"], ["halt"]] =
      Except.ok ([("start", 0)], [["halt"]]) ∧
    pass2 [["halt"]] [("start", 0)] =
      ([[]], Except.ok ["00 : 0011110000000000",
                        "[01..FF] : 11111111111111111"]) ∧
    __HALT__.opcode = "0011110000000000" := by decide

/-! Claims section: Claim C9: signed and unsigned encoders agree on 0..255 -/

/-- All four C9 facts for a fixed natural number below 256. -/
abbrev c9Prop (n : Nat) : Prop :=
  dec2bin8 (n : Int) = Except.ok (dec2comp8 (n : Int)) ∧
  dec2comp8 (n : Int) = specUnsigned8 n ∧
  (dec2comp8 (n : Int)).toList.length = 8 ∧
  format_argument __LOAD__ (Nat.repr n) 0 = Except.ok (specUnsigned8 n)

set_option maxRecDepth 4096 in
theorem c9_ball : ∀ n : Nat, n < 256 → c9Prop n := by decide

/-- Claim C9.  For every integer `0 ≤ d ≤ 255` the signed encoder
`dec2comp8` returns exactly the string the unsigned encoder `dec2bin8`
returns, namely the zero-padded unsigned 8-bit binary of `d` (an
8-character string); hence `format_argument`, which routes every
immediate through `dec2comp8` after `int()` parsing, produces the correct
unsigned encoding over the whole address range. -/
theorem C9_signed_unsigned_agree (d : Int) (h0 : 0 ≤ d) (h1 : d ≤ 255) :
    dec2bin8 d = Except.ok (dec2comp8 d) ∧
    dec2comp8 d = specUnsigned8 d.toNat ∧
    (dec2comp8 d).toList.length = 8 ∧
    format_argument __LOAD__ (Nat.repr d.toNat) 0 =
      Except.ok (specUnsigned8 d.toNat) := by
  obtain ⟨n, rfl⟩ := Int.eq_ofNat_of_zero_le h0
  have hn : n < 256 := by exact_mod_cast Int.lt_add_one_iff.mpr h1
  have := c9_ball n hn
  simpa [c9Prop, Int.toNat_ofNat] using this

/-- Witness for `C9_signed_unsigned_agree` at `d = 200`. -/
theorem C9_witness :
    (0 : Int) ≤ 200 ∧ (200 : Int) ≤ 255 ∧
    (dec2bin8 200 = Except.ok (dec2comp8 200) ∧
     dec2comp8 200 = specUnsigned8 (200 : Int).toNat ∧
     (dec2comp8 200).toList.length = 8 ∧
     format_argument __LOAD__ (Nat.repr (200 : Int).toNat) 0 =
       Except.ok (specUnsigned8 (200 : Int).toNat)) :=
  ⟨by decide, by decide, C9_signed_unsigned_agree 200 (by decide) (by decide)⟩

/-! Claims section: Claim C10: pass2 mutates its input lines -/

lemma c10_aux (labels : LabelTable) :
    ∀ (tokens : List Line) (cur : Nat) (ts : List Line) (out : List String),
      pass2Aux labels 16 tokens cur = (ts, Except.ok out) →
      ts = tokens.map popRec := by
  intro tokens
  induction tokens with
  | nil =>
    intro cur ts out h
    simp only [pass2Aux, Prod.mk.injEq] at h
    simp [← h.1]
  | cons line rest ih =>
    intro cur ts out h
    match line with
    | [] =>
      simp only [pass2Aux, Prod.mk.injEq] at h
      exact absurd h.2 (by simp)
    | w :: ops =>
      rw [pass2Aux] at h
      split at h
      · rename_i hl
        simp only [Prod.mk.injEq] at h
        have h2 : pass2Aux labels 16 rest cur =
            ((pass2Aux labels 16 rest cur).1, Except.ok out) := by
          rw [← h.2]
        have := ih cur (pass2Aux labels 16 rest cur).1 out h2
        simp [← h.1, List.map_cons, popRec, hl, this]
      · rename_i command hl
        split at h
        · simp only [Prod.mk.injEq] at h
          exact absurd h.2 (by simp)
        · rename_i s hf
          simp only [Prod.mk.injEq] at h
          obtain ⟨h1, h2⟩ := h
          cases hr : (pass2Aux labels 16 rest (cur + 1)).2 with
          | error e2 => rw [hr] at h2; simp [Except.map] at h2
          | ok out2 =>
            have h3 : pass2Aux labels 16 rest (cur + 1) =
                ((pass2Aux labels 16 rest (cur + 1)).1, Except.ok out2) := by
              rw [← hr]
            have := ih (cur + 1) (pass2Aux labels 16 rest (cur + 1)).1 out2 h3
            simp [← h1, List.map_cons, popRec, hl, this]

/-- Claim C10.  `pass2` mutates its input token list in place: on a run
that returns normally, every line whose first word (upper-cased) is a key
of the command dictionary has that first word popped, so it holds only
its operand tokens afterwards, while unrecognized lines are left
unchanged. -/
theorem C10_pass2_pops (tokens : List Line) (labels : LabelTable)
    (ts : List Line) (out : List String)
    (h : pass2 tokens labels = (ts, Except.ok out)) :
    ts = tokens.map popRec :=
  c10_aux labels tokens 0 ts out h

/-- Witness for `C10_pass2_pops` on a three-line program with one
unrecognized line. -/
theorem C10_witness :
    pass2 [["loada", "rb", "10"], ["foo"], ["halt"]] [] =
      ([["rb", "10"], ["foo"], []],
       Except.ok ["00 : 0000100100001010", "01 : 0011110000000000",
                  "[02..FF] : 11111111111111111"]) ∧
    [["rb", "10"], ["foo"], []] =
      [["loada", "rb", "10"], ["foo"], ["halt"]].map popRec :=
  ⟨by decide,
   C10_pass2_pops [["loada", "rb", "10"], ["foo"], ["halt"]] []
     [["rb", "10"], ["foo"], []]
     ["00 : 0000100100001010", "01 : 0011110000000000",
      "[02..FF] : 11111111111111111"] (by decide)⟩

/-! Claims section: Claim C6: undefined labels abort the run -/

/-- Formatting a branch-style schema (whose single field is a label
reference) fails when the operand has no entry in the label table. -/
lemma label_cmd_format_error (c : Command)
    (hord : c.order = [SubCommandType.LABEL])
    (arg : String) (tl : List String) (labels : LabelTable)
    (harg : List.lookup arg labels = none) :
    c.format (arg :: tl) labels =
      Except.error "KeyError: undefined label" := by
  unfold Command.format
  rw [hord]
  simp [formatGo, format_label, harg, List.get?]

lemma c6_aux (labels : LabelTable) (w arg : String) (tl : List String)
    (hw : pyUpper w ∈ ["BRA", "BRAZ", "BRAN", "BRAO", "BRAC", "CALL"])
    (harg : List.lookup arg labels = none) :
    ∀ (tokens : List Line) (cur : Nat), (w :: arg :: tl) ∈ tokens →
      ((pass2Aux labels 16 tokens cur).2).toOption = none := by
  have hbad : ∃ c, List.lookup (pyUpper w) __COMMAND_DICTIONARY__ = some c ∧
      c.order = [SubCommandType.LABEL] := by
    simp only [List.mem_cons, List.not_mem_nil, or_false] at hw
    rcases hw with h | h | h | h | h | h <;> rw [h]
    · exact ⟨__BRA__, by decide, by decide⟩
    · exact ⟨__BRA_Z__, by decide, by decide⟩
    · exact ⟨__BRA_N__, by decide, by decide⟩
    · exact ⟨__BRA_O__, by decide, by decide⟩
    · exact ⟨__BRA_C__, by decide, by decide⟩
    · exact ⟨__CALL__, by decide, by decide⟩
  obtain ⟨c, hc, hord⟩ := hbad
  have hfmt := label_cmd_format_error c hord arg tl labels harg
  intro tokens
  induction tokens with
  | nil => intro cur hmem; simp at hmem
  | cons line rest ih =>
    intro cur hmem
    rcases List.mem_cons.mp hmem with heq | hmem2
    · subst heq
      rw [pass2Aux]
      simp [hc, hfmt, Except.toOption]
    · match line with
      | [] => rw [pass2Aux]; simp [Except.toOption]
      | w2 :: ops2 =>
        rw [pass2Aux]
        cases hl2 : List.lookup (pyUpper w2) __COMMAND_DICTIONARY__ with
        | none => simpa [hl2] using ih cur hmem2
        | some c2 =>
          simp only [hl2]
          cases hf2 : c2.format ops2 labels with
          | error e => simp [hf2, Except.toOption]
          | ok s =>
            simp only [hf2]
            have hih := ih (cur + 1) hmem2
            cases hr : (pass2Aux labels 16 rest (cur + 1)).2 with
            | error e2 => simp [hr, Except.map, Except.toOption]
            | ok o => rw [hr] at hih; simp [Except.toOption] at hih

/-- Claim C6.  If any instruction line is a branch/call whose label
operand has no entry in the label table, `pass2` propagates the failure
(the `KeyError` of `format_label`) and returns no program image at all:
its result is an error, never a partial output presented as valid. -/
theorem C6_undefined_label_fails (tokens : List Line) (labels : LabelTable)
    (w arg : String) (tl : List String)
    (hmem : (w :: arg :: tl) ∈ tokens)
    (hw : pyUpper w ∈ ["BRA", "BRAZ", "BRAN", "BRAO", "BRAC", "CALL"])
    (harg : List.lookup arg labels = none) :
    ((pass2 tokens labels).2).toOption = none :=
  c6_aux labels w arg tl hw harg tokens 0 hmem

/-- Witness for `C6_undefined_label_fails`: `bra missing` with an empty
label table. -/
theorem C6_witness :
    (["bra", "missing"] : Line) ∈ [["halt"], ["bra", "missing"]] ∧
    pyUpper "bra" ∈ ["BRA", "BRAZ", "BRAN", "BRAO", "BRAC", "CALL"] ∧
    List.lookup "missing" ([] : LabelTable) = none ∧
    ((pass2 [["halt"], ["bra", "missing"]] []).2).toOption = none :=
  ⟨by decide, by decide, by decide,
   C6_undefined_label_fails [["halt"], ["bra", "missing"]] []
     "bra" "missing" [] (by decide) (by decide) (by decide)⟩

/-! Claims section: Claim C7: the trailing fill entry -/

lemma c7_aux (labels : LabelTable) :
    ∀ (tokens : List Line) (cur : Nat) (ts : List Line) (out : List String),
      pass2Aux labels 16 tokens cur = (ts, Except.ok out) →
      out.length = recCount tokens +
          (if cur + recCount tokens = 256 then 0 else 1) ∧
        (cur + recCount tokens ≠ 256 →
          out.getLast? = some ("[" ++ format02x (cur + recCount tokens) ++
            "..FF] : 11111111111111111")) := by
  intro tokens
  induction tokens with
  | nil =>
    intro cur ts out h
    simp only [pass2Aux, Prod.mk.injEq] at h
    have hout := h.2
    by_cases hc : cur = 256
    · simp only [hc, beq_self_eq_true, if_true] at hout
      obtain rfl : ([] : List String) = out := Except.ok.inj hout
      simp [recCount, hc]
    · have : (cur == 256) = false := by simp [hc]
      simp only [this, if_false] at hout
      obtain rfl := Except.ok.inj hout
      simp [recCount, hc]
  | cons line rest ih =>
    intro cur ts out h
    match line with
    | [] =>
      simp only [pass2Aux, Prod.mk.injEq] at h
      exact absurd h.2 (by simp)
    | w :: ops =>
      rw [pass2Aux] at h
      split at h
      · rename_i hl
        simp only [Prod.mk.injEq] at h
        have h2 : pass2Aux labels 16 rest cur =
            ((pass2Aux labels 16 rest cur).1, Except.ok out) := by
          rw [← h.2]
        have hrc : recCount ((w :: ops) :: rest) = recCount rest := by
          simp [recCount, List.countP_cons, recLine, hl]
        rw [hrc]
        exact ih cur (pass2Aux labels 16 rest cur).1 out h2
      · rename_i command hl
        split at h
        · simp only [Prod.mk.injEq] at h
          exact absurd h.2 (by simp)
        · rename_i s hf
          simp only [Prod.mk.injEq] at h
          obtain ⟨h1, h2⟩ := h
          have hrc : recCount ((w :: ops) :: rest) = recCount rest + 1 := by
            simp [recCount, List.countP_cons, recLine, hl]
          cases hr : (pass2Aux labels 16 rest (cur + 1)).2 with
          | error e2 => rw [hr] at h2; simp [Except.map] at h2
          | ok out2 =>
            rw [hr] at h2
            simp only [Except.map] at h2
            obtain rfl := (Except.ok.inj h2).symm
            have h3 : pass2Aux labels 16 rest (cur + 1) =
                ((pass2Aux labels 16 rest (cur + 1)).1, Except.ok out2) := by
              rw [← hr]
            have hih := ih (cur + 1) (pass2Aux labels 16 rest (cur + 1)).1
              out2 h3
            have harith : cur + 1 + recCount rest = cur + recCount ((w :: ops) :: rest) := by
              rw [hrc]; omega
            constructor
            · have hlen := hih.1
              rw [harith] at hlen
              simp only [List.length_cons, hlen]
              omega
            · intro hne
              have hne2 : cur + 1 + recCount rest ≠ 256 := by
                rw [harith]; exact hne
              have hlast := hih.2 hne2
              have hlen := hih.1
              have hpos : 0 < out2.length := by
                rw [hlen]
                simp only [hne2, if_false]
                omega
              match out2, hpos with
              | o :: os, _ =>
                rw [List.getLast?_cons_cons]
                rw [harith] at hlast
                exact hlast

/-- Claim C7.  Whenever a normal `pass2` run emits fewer than 256
instructions, the produced entry list is the instruction entries followed
by exactly one trailing fill entry, `[<next free address>..FF]` with a
bit pattern of exactly 17 one-bits (one character more than the 16-bit
instruction width). -/
theorem C7_fill_entry (tokens : List Line) (labels : LabelTable)
    (ts : List Line) (out : List String)
    (h : pass2 tokens labels = (ts, Except.ok out))
    (hlt : recCount tokens < 256) :
    out.length = recCount tokens + 1 ∧
    out.getLast? = some ("[" ++ format02x (recCount tokens) ++ "..FF] : " ++
      String.mk (List.replicate 17 '1')) := by
  have haux := c7_aux labels tokens 0 ts out h
  have hne : 0 + recCount tokens ≠ 256 := by omega
  have hsplit : ∀ s : String,
      s ++ "..FF] : 11111111111111111" =
        (s ++ "..FF] : ") ++ String.mk (List.replicate 17 '1') := by
    intro s
    have hlit : ("..FF] : 11111111111111111" : String) =
        "..FF] : " ++ String.mk (List.replicate 17 '1') := by decide
    rw [hlit, String.append_assoc]
  constructor
  · have h1 := haux.1
    rw [if_neg hne] at h1
    omega
  · have h2 := haux.2 hne
    rw [Nat.zero_add] at h2
    rw [h2, hsplit]

/-- Witness for `C7_fill_entry` on a one-instruction program. -/
theorem C7_witness :
    pass2 [["halt"]] [] =
      ([[]], Except.ok ["00 : 0011110000000000",
                        "[01..FF] : 11111111111111111"]) ∧
    recCount [["halt"]] < 256 ∧
    (["00 : 0011110000000000",
      "[01..FF] : 11111111111111111"].length = recCount [["halt"]] + 1 ∧
     ["00 : 0011110000000000",
      "[01..FF] : 11111111111111111"].getLast? =
       some ("[" ++ format02x (recCount [["halt"]]) ++ "..FF] : " ++
         String.mk (List.replicate 17 '1'))) :=
  ⟨by decide, by decide,
   C7_fill_entry [["halt"]] [] [[]]
     ["00 : 0011110000000000", "[01..FF] : 11111111111111111"]
     (by decide) (by decide)⟩

end Asm
